import Mathlib

set_option linter.unusedVariables false
set_option linter.unnecessarySeqFocus false

/-!
Shallow embedding of the interactive remote-shell relay of
`src/backend/server.py` (ServerManagerWEB): the `SSHConnectionManager`
class, the five polling HTTP endpoints (`ssh_connect`, `ssh_send`,
`ssh_read`, `ssh_disconnect`, `ssh_resize`) and the websocket bridge
(`ssh_websocket`).

Modelling conventions:
* Python dicts keyed by connection id become association lists
  `List (String × α)`; insertion replaces any previous binding, deletion
  filters the key out, exactly mirroring `d[k] = v` / `del d[k]` / `k in d`.
* A paramiko `Channel` is modelled by the data the relay observes of it:
  the FIFO of output chunks its OS buffer holds (`buffer`, drained by
  `recv` in arrival order) and whether a `send` on it raises
  (`sendFails`, covering the `except: return False` path of
  `send_command`).
* A paramiko `SSHClient` (the transport) is opaque to the relay — the code
  only stores it, tests membership and closes it — so the connections map
  stores `Unit` values and `disconnect` reports its `close()` calls as
  explicit `CloseEvent`s, preserving their order.
* Endpoint handlers take the caller's role (FastAPI's
  `Depends(get_current_user)`) and the global `ssh_manager` state, and
  return the HTTP outcome together with the manager state after the call
  (`HTTPException` raised = `Except.error`).
* Remote outcomes the code cannot decide (does `client.connect` +
  `invoke_shell` succeed? is paramiko installed?) are explicit boolean
  parameters of the embedded functions.
-/

/-- One key-value binding lookup on an association list (`k in d` on a
Python dict restricted to the keys). -/
def hasKey {α : Type} (l : List (String × α)) (k : String) : Bool :=
  l.any fun p => decide (p.1 = k)

/-- `del d[k]`: remove every binding of `k`. -/
def eraseKey {α : Type} (l : List (String × α)) (k : String) : List (String × α) :=
  l.filter fun p => decide (p.1 ≠ k)

/-- `d[k] = v`: bind `k` to `v`, replacing any previous binding. -/
def insertKey {α : Type} (l : List (String × α)) (k : String) (v : α) : List (String × α) :=
  (k, v) :: eraseKey l k

/-- `d.get(k)` / `d[k]` as a partial lookup. -/
def lookupKey {α : Type} (l : List (String × α)) (k : String) : Option α :=
  (l.find? fun p => decide (p.1 = k)).map Prod.snd

/-- The observable state of a paramiko `Channel`: the chunks its buffer
holds, in the order the remote side produced them (drained front-first by
`recv`), and whether `send` on it raises. -/
structure Channel where
  buffer : List String
  sendFails : Bool
deriving DecidableEq, Repr

/-- A paramiko `SSHClient` transport: opaque to the relay (stored, tested
for membership, closed). -/
abbrev SSHClient := Unit

/-- State of the global `SSHConnectionManager`: `self.connections` and
`self.channels`, two dicts keyed by connection id. -/
structure SSHConnectionManager where
  connections : List (String × SSHClient)
  channels : List (String × Channel)
deriving DecidableEq, Repr

/-- `SSHConnectionManager()`: both dicts empty. -/
def SSHConnectionManager.init : SSHConnectionManager :=
  { connections := [], channels := [] }

/-- Resource-release action taken by `disconnect`: `channels[id].close()`
or `connections[id].close()`. -/
inductive CloseEvent where
  | closeChannel (id : String)
  | closeTransport (id : String)
deriving DecidableEq, Repr

namespace SSHConnectionManager

/-- `SSHConnectionManager.connect`: on success (paramiko present, remote
connect + `invoke_shell` succeed) stores the client and channel under
`connection_id` and returns `True`; on any failure returns `False` with
both dicts untouched (the stores are the last statements of the `try`). -/
def connect (st : SSHConnectionManager) (connection_id : String)
    (paramikoAvailable : Bool) (remoteOk : Bool) (ch : Channel) :
    SSHConnectionManager × Bool :=
  if ¬paramikoAvailable then (st, false)
  else if ¬remoteOk then (st, false)
  else ({ connections := insertKey st.connections connection_id (),
          channels := insertKey st.channels connection_id ch }, true)

/-- `SSHConnectionManager.send_command`: `False` when the id is absent from
`channels` or when `channel.send` raises; the dicts are never modified,
even on a send error. -/
def send_command (st : SSHConnectionManager) (connection_id : String)
    (data : String) : Bool :=
  match lookupKey st.channels connection_id with
  | none => false
  | some ch => ¬ch.sendFails

/-- `SSHConnectionManager.read_output`: returns `""` when the id is absent;
otherwise drains the channel's buffer front-first (`while recv_ready:
output += recv(4096)`), concatenating the chunks in arrival order, and
leaves the buffer empty. -/
def read_output (st : SSHConnectionManager) (connection_id : String) :
    String × SSHConnectionManager :=
  match lookupKey st.channels connection_id with
  | none => ("", st)
  | some ch =>
      let drained : Channel := { ch with buffer := [] }
      (String.join ch.buffer,
       { st with channels := insertKey st.channels connection_id drained })

/-- `SSHConnectionManager.disconnect`: if the id is in `channels`, close
the channel and delete the entry; then, if it is in `connections`, close
the transport and delete that entry. Absent ids are skipped silently. -/
def disconnect (st : SSHConnectionManager) (connection_id : String) :
    SSHConnectionManager × List CloseEvent :=
  let p1 : SSHConnectionManager × List CloseEvent :=
    if hasKey st.channels connection_id then
      ({ st with channels := eraseKey st.channels connection_id },
       [CloseEvent.closeChannel connection_id])
    else (st, [])
  let p2 : SSHConnectionManager × List CloseEvent :=
    if hasKey p1.1.connections connection_id then
      ({ p1.1 with connections := eraseKey p1.1.connections connection_id },
       [CloseEvent.closeTransport connection_id])
    else (p1.1, [])
  (p2.1, p1.2 ++ p2.2)

/-- `SSHConnectionManager.is_connected`: membership of the id in both
dicts. -/
def is_connected (st : SSHConnectionManager) (connection_id : String) : Bool :=
  hasKey st.connections connection_id && hasKey st.channels connection_id

end SSHConnectionManager

/-- Caller role produced by the auth collaborator (`get_current_user`). -/
inductive Role where
  | admin
  | user
  | readonly
deriving DecidableEq, Repr

/-- A raised FastAPI `HTTPException`. -/
structure HTTPException where
  status_code : Nat
  detail : String
deriving DecidableEq, Repr

/-- The fields of a server record that `ssh_connect` reads. -/
structure Server where
  os_type : String
  ip_address : String
  ssh_port : Nat
deriving DecidableEq, Repr

/-- `POST /api/servers/{server_id}/ssh/connect`: deny readonly (403), then
require paramiko (500), a known server (404) and a linux target (400),
then attempt the connection; a failed attempt is a 400 with the manager
untouched, a successful one returns the fresh connection id.
`server` is the result of the `servers_collection.find_one` lookup;
`connection_id` stands for the generated `secrets.token_urlsafe(16)`. -/
def ssh_connect (current_role : Role) (paramikoAvailable : Bool)
    (server : Option Server) (st : SSHConnectionManager)
    (connection_id : String) (remoteOk : Bool) (ch : Channel) :
    Except HTTPException String × SSHConnectionManager :=
  if current_role = Role.readonly then
    (Except.error ⟨403, "Permission denied"⟩, st)
  else if ¬paramikoAvailable then
    (Except.error ⟨500, "SSH not available (paramiko not installed)"⟩, st)
  else
    match server with
    | none => (Except.error ⟨404, "Server not found"⟩, st)
    | some s =>
        if s.os_type ≠ "linux" then
          (Except.error ⟨400, "SSH only available for Linux servers"⟩, st)
        else
          let r := SSHConnectionManager.connect st connection_id
            paramikoAvailable remoteOk ch
          if ¬r.2 then
            (Except.error ⟨400, "Failed to establish SSH connection"⟩, r.1)
          else
            (Except.ok connection_id, r.1)

/-- `POST /api/ssh/{connection_id}/send`: 400 when the id is not connected;
otherwise forward the input to `send_command`, whose return value the
handler ignores, and answer `"sent"`. No role check is performed. -/
def ssh_send (current_role : Role) (st : SSHConnectionManager)
    (connection_id : String) (input : String) :
    Except HTTPException String × SSHConnectionManager :=
  if ¬SSHConnectionManager.is_connected st connection_id then
    (Except.error ⟨400, "SSH connection not found"⟩, st)
  else
    let sent := SSHConnectionManager.send_command st connection_id input
    (Except.ok "sent", st)

/-- `GET /api/ssh/{connection_id}/read`: 400 when the id is not connected;
otherwise return `read_output` verbatim (an empty string is not an
error). No role check is performed. -/
def ssh_read (current_role : Role) (st : SSHConnectionManager)
    (connection_id : String) :
    Except HTTPException String × SSHConnectionManager :=
  if ¬SSHConnectionManager.is_connected st connection_id then
    (Except.error ⟨400, "SSH connection not found"⟩, st)
  else
    let r := SSHConnectionManager.read_output st connection_id
    (Except.ok r.1, r.2)

/-- `POST /api/ssh/{connection_id}/disconnect`: unconditionally calls
`ssh_manager.disconnect` and answers with a success message — no
is-connected precondition and no role check. -/
def ssh_disconnect (current_role : Role) (st : SSHConnectionManager)
    (connection_id : String) :
    Except HTTPException String × SSHConnectionManager :=
  (Except.ok "SSH connection closed",
   (SSHConnectionManager.disconnect st connection_id).1)

/-- `POST /api/ssh/{connection_id}/resize`: 400 when the id is not
connected; otherwise a best-effort `resize_pty` whose failure is swallowed
(`try ... except: pass`), answering `"resized"`. No role check is
performed; the pty geometry is not part of the observable channel state. -/
def ssh_resize (current_role : Role) (st : SSHConnectionManager)
    (connection_id : String) (cols rows : Nat) :
    Except HTTPException String × SSHConnectionManager :=
  if ¬SSHConnectionManager.is_connected st connection_id then
    (Except.error ⟨400, "SSH connection not found"⟩, st)
  else
    (Except.ok "resized", st)

/-- What `websocket.receive_text` (under `asyncio.wait_for`, 0.1s) yields
in one iteration of the `ssh_websocket` loop: a parsed client message, a
timeout, or a `WebSocketDisconnect`. -/
inductive ClientMsg where
  | input (data : String)
  | resize (cols rows : Nat)
  | timeout
  | closeStream
deriving DecidableEq, Repr

/-- The environment of one loop iteration: the client message, the output
chunks the remote side appended to the channel buffer before this
iteration's `read_output`, whether a concurrent `disconnect` (e.g. the
polling endpoint) tears the session down between the read and the
liveness check, and whether a `websocket.send_json` in this iteration
raises. -/
structure IterEnv where
  msg : ClientMsg
  arrived : List String
  externalDisconnect : Bool
  sendFails : Bool
deriving DecidableEq, Repr

/-- A message the bridge delivers to the websocket client. -/
inductive WsMsg where
  | output (data : String)
  | disconnected
deriving DecidableEq, Repr

/-- Why the `while True` loop of `ssh_websocket` ended: the client closed
the stream (`WebSocketDisconnect`), a `send_json` raised, or the
liveness check failed and the `disconnected` message was sent (`break`). -/
inductive LoopExit where
  | clientClosed
  | sendError
  | sessionDead
deriving DecidableEq, Repr

/-- Remote output arriving on a session's channel buffer (appended in
production order); a no-op for an unknown id. -/
def pushChunks (st : SSHConnectionManager) (connection_id : String)
    (chunks : List String) : SSHConnectionManager :=
  match lookupKey st.channels connection_id with
  | none => st
  | some ch =>
      let grown : Channel := { ch with buffer := ch.buffer ++ chunks }
      { st with channels := insertKey st.channels connection_id grown }

/-- The `while True` loop of `ssh_websocket`, driven by a finite script of
iteration environments. Per iteration, mirroring the code: (1) handle the
client message — `input` goes to `send_command` (result ignored),
`resize` is best-effort, `WebSocketDisconnect` exits the loop; (2)
`read_output`, and forward a non-empty result as an `output` message; (3)
if `is_connected` fails, send `disconnected` and `break`. An exhausted
script leaves the loop still running (`none`). -/
def wsLoop (st : SSHConnectionManager) (connection_id : String) :
    List IterEnv → List WsMsg × Option LoopExit × SSHConnectionManager
  | [] => ([], none, st)
  | env :: rest =>
      if env.msg = ClientMsg.closeStream then
        ([], some LoopExit.clientClosed, st)
      else
        let st2 := pushChunks st connection_id env.arrived
        let r := SSHConnectionManager.read_output st2 connection_id
        if r.1 ≠ "" ∧ env.sendFails then
          ([], some LoopExit.sendError, r.2)
        else
          let msgs1 := if r.1 = "" then [] else [WsMsg.output r.1]
          let st4 := if env.externalDisconnect then
              (SSHConnectionManager.disconnect r.2 connection_id).1
            else r.2
          if ¬SSHConnectionManager.is_connected st4 connection_id then
            if env.sendFails then
              (msgs1, some LoopExit.sendError, st4)
            else
              (msgs1 ++ [WsMsg.disconnected], some LoopExit.sessionDead, st4)
          else
            let rec' := wsLoop st4 connection_id rest
            (msgs1 ++ rec'.1, rec'.2.1, rec'.2.2)

/-- Outcome of the `ssh_websocket` handler: rejected before the loop with
a close code, finished (loop exited, the `finally` ran), or still running
(finite script exhausted, `finally` not yet reached). -/
inductive WsOutcome where
  | rejected (closeCode : Nat)
  | finished (exitReason : LoopExit)
  | stillRunning
deriving DecidableEq, Repr

/-- `WS /api/ws/ssh/{connection_id}`: accept; if the id is not connected,
close with code 4000 and return before the loop; otherwise run the loop
and, when it exits, run `finally: ssh_manager.disconnect(connection_id)`. -/
def ssh_websocket (st : SSHConnectionManager) (connection_id : String)
    (script : List IterEnv) :
    List WsMsg × WsOutcome × SSHConnectionManager :=
  if ¬SSHConnectionManager.is_connected st connection_id then
    ([], WsOutcome.rejected 4000, st)
  else
    let r := wsLoop st connection_id script
    match r.2.1 with
    | none => (r.1, WsOutcome.stillRunning, r.2.2)
    | some e =>
        (r.1, WsOutcome.finished e,
         (SSHConnectionManager.disconnect r.2.2 connection_id).1)

/-- One state-affecting `SSHConnectionManager` call, for reasoning about
arbitrary interleavings of manager operations. -/
inductive Op where
  | connect (id : String) (paramikoAvailable remoteOk : Bool) (ch : Channel)
  | send (id : String) (data : String)
  | read (id : String)
  | disconnect (id : String)
deriving DecidableEq, Repr

/-- Effect of one manager call on the manager state (`send_command`
returns a `Bool` and never touches the dicts). -/
def applyOp (st : SSHConnectionManager) : Op → SSHConnectionManager
  | Op.connect id pa ok ch => (SSHConnectionManager.connect st id pa ok ch).1
  | Op.send id data => st
  | Op.read id => (SSHConnectionManager.read_output st id).2
  | Op.disconnect id => (SSHConnectionManager.disconnect st id).1

/-- A sequence of manager calls, applied in order. -/
def runOps (st : SSHConnectionManager) (ops : List Op) : SSHConnectionManager :=
  ops.foldl applyOp st

/-- Successive `read_output` calls on one session, interleaved with
batches of freshly produced remote chunks: before each read, that batch
is appended to the buffer; the list of returned strings is collected. -/
def readsTrace (st : SSHConnectionManager) (connection_id : String) :
    List (List String) → List String
  | [] => []
  | batch :: rest =>
      let st1 := pushChunks st connection_id batch
      let r := SSHConnectionManager.read_output st1 connection_id
      r.1 :: readsTrace r.2 connection_id rest

/-- Number of `disconnected` messages in a bridge trace. -/
def countDisconnected (msgs : List WsMsg) : Nat :=
  msgs.countP fun m => decide (m = WsMsg.disconnected)

/-! ### Association-list lemmas -/

theorem hasKey_eraseKey {α : Type} (l : List (String × α)) (k k2 : String) :
    hasKey (eraseKey l k) k2 = (decide (k2 ≠ k) && hasKey l k2) := by
  unfold hasKey eraseKey
  rw [List.any_filter]
  induction l with
  | nil => simp
  | cons a t ih =>
    rw [List.any_cons, List.any_cons, ih, Bool.and_or_distrib_left]
    by_cases h2 : k2 = k
    · subst h2
      by_cases h : a.1 = k2 <;> simp [h]
    · by_cases h : a.1 = k2
      · subst h
        simp [h2]
      · simp [h]

theorem hasKey_insertKey {α : Type} (l : List (String × α)) (k k2 : String) (v : α) :
    hasKey (insertKey l k v) k2 = (decide (k2 = k) || hasKey l k2) := by
  unfold insertKey
  rw [show hasKey ((k, v) :: eraseKey l k) k2 =
        (decide (k = k2) || hasKey (eraseKey l k) k2) from List.any_cons,
      hasKey_eraseKey]
  by_cases h2 : k2 = k
  · subst h2; simp
  · simp [h2, Ne.symm h2]

theorem eraseKey_of_not_hasKey {α : Type} (l : List (String × α)) (k : String)
    (h : hasKey l k = false) : eraseKey l k = l := by
  induction l with
  | nil => rfl
  | cons a t ih =>
    rw [hasKey, List.any_cons, Bool.or_eq_false_iff] at h
    rw [eraseKey, List.filter_cons, if_pos (by simpa using h.1)]
    exact congrArg (a :: ·) (ih h.2)

theorem lookupKey_isSome {α : Type} (l : List (String × α)) (k : String) :
    (lookupKey l k).isSome = hasKey l k := by
  induction l with
  | nil => rfl
  | cons a t ih =>
    rw [lookupKey, List.find?_cons, hasKey, List.any_cons]
    by_cases h : a.1 = k
    · simp [h]
    · simpa [h, lookupKey, hasKey] using ih

theorem lookupKey_none_of_not_hasKey {α : Type} (l : List (String × α)) (k : String)
    (h : hasKey l k = false) : lookupKey l k = none := by
  have hs := lookupKey_isSome l k
  rw [h] at hs
  exact Option.not_isSome_iff_eq_none.mp (by simp [hs])

theorem lookupKey_insertKey_self {α : Type} (l : List (String × α)) (k : String) (v : α) :
    lookupKey (insertKey l k v) k = some v := by
  simp [lookupKey, insertKey, List.find?_cons]

theorem hasKey_of_lookupKey_some {α : Type} {l : List (String × α)} {k : String}
    {v : α} (h : lookupKey l k = some v) : hasKey l k = true := by
  have hs := lookupKey_isSome l k
  rw [h] at hs
  simpa using hs.symm

/-! ### Lemmas about `disconnect` and `is_connected` -/

theorem disconnect_channels_hasKey (st : SSHConnectionManager) (id id2 : String) :
    hasKey (SSHConnectionManager.disconnect st id).1.channels id2 =
      (decide (id2 ≠ id) && hasKey st.channels id2) := by
  unfold SSHConnectionManager.disconnect
  by_cases h1 : hasKey st.channels id
  · by_cases h2 : hasKey st.connections id <;>
      simp [h1, h2, hasKey_eraseKey]
  · by_cases h2 : hasKey st.connections id <;>
      simp [h1, h2, hasKey_eraseKey] <;>
      by_cases h3 : id2 = id <;> simp [h3, h1]

theorem disconnect_connections_hasKey (st : SSHConnectionManager) (id id2 : String) :
    hasKey (SSHConnectionManager.disconnect st id).1.connections id2 =
      (decide (id2 ≠ id) && hasKey st.connections id2) := by
  unfold SSHConnectionManager.disconnect
  by_cases h1 : hasKey st.channels id
  · by_cases h2 : hasKey st.connections id <;>
      simp [h1, h2, hasKey_eraseKey] <;>
      by_cases h3 : id2 = id <;> simp [h3, h2]
  · by_cases h2 : hasKey st.connections id <;>
      simp [h1, h2, hasKey_eraseKey] <;>
      by_cases h3 : id2 = id <;> simp [h3, h2]

theorem is_connected_disconnect (st : SSHConnectionManager) (id : String) :
    SSHConnectionManager.is_connected (SSHConnectionManager.disconnect st id).1 id = false := by
  rw [SSHConnectionManager.is_connected, disconnect_connections_hasKey]
  simp

theorem disconnect_of_no_entry (st : SSHConnectionManager) (id : String)
    (hch : hasKey st.channels id = false) (hco : hasKey st.connections id = false) :
    SSHConnectionManager.disconnect st id = (st, []) := by
  unfold SSHConnectionManager.disconnect
  simp [hch, hco]

theorem disconnect_idem (st : SSHConnectionManager) (id : String) :
    SSHConnectionManager.disconnect (SSHConnectionManager.disconnect st id).1 id =
      ((SSHConnectionManager.disconnect st id).1, []) := by
  apply disconnect_of_no_entry
  · rw [disconnect_channels_hasKey]; simp
  · rw [disconnect_connections_hasKey]; simp

/-! ### Lemmas about `String.join` -/

theorem stringJoin_cons (s : String) (l : List String) :
    String.join (s :: l) = s ++ String.join l := by
  apply String.ext
  simp [String.join_eq, String.data_append]

theorem stringJoin_append (l1 l2 : List String) :
    String.join (l1 ++ l2) = String.join l1 ++ String.join l2 := by
  apply String.ext
  simp [String.join_eq, String.data_append, List.flatten_append]

/-! ### Key-set alignment of the two dicts -/

/-- The two dicts of the manager hold exactly the same connection ids. -/
def keysAligned (st : SSHConnectionManager) : Prop :=
  ∀ id, hasKey st.connections id = hasKey st.channels id

theorem keysAligned_init : keysAligned SSHConnectionManager.init := by
  intro id
  rfl

theorem read_output_channels_hasKey (st : SSHConnectionManager) (id id2 : String) :
    hasKey (SSHConnectionManager.read_output st id).2.channels id2 =
      hasKey st.channels id2 := by
  unfold SSHConnectionManager.read_output
  cases hl : lookupKey st.channels id with
  | none => rfl
  | some ch =>
      have hk := hasKey_of_lookupKey_some hl
      simp only [hasKey_insertKey]
      by_cases h3 : id2 = id
      · subst h3; simp [hk]
      · simp [h3]

theorem keysAligned_applyOp (st : SSHConnectionManager) (op : Op)
    (h : keysAligned st) : keysAligned (applyOp st op) := by
  cases op with
  | connect id pa ok ch =>
      intro id2
      unfold applyOp SSHConnectionManager.connect
      by_cases hpa : pa
      · by_cases hok : ok
        · simp only [hpa, hok, not_true, if_false, ite_false, ite_true]
          simp [hasKey_insertKey, h id2]
        · simp [hpa, hok, h id2]
      · simp [hpa, h id2]
  | send id data =>
      exact h
  | read id =>
      intro id2
      show hasKey (SSHConnectionManager.read_output st id).2.connections id2 =
        hasKey (SSHConnectionManager.read_output st id).2.channels id2
      rw [read_output_channels_hasKey]
      have hconn : (SSHConnectionManager.read_output st id).2.connections =
          st.connections := by
        unfold SSHConnectionManager.read_output
        cases lookupKey st.channels id <;> rfl
      rw [hconn]
      exact h id2
  | disconnect id =>
      intro id2
      show hasKey (SSHConnectionManager.disconnect st id).1.connections id2 =
        hasKey (SSHConnectionManager.disconnect st id).1.channels id2
      rw [disconnect_connections_hasKey, disconnect_channels_hasKey, h id2]

theorem keysAligned_runOps (st : SSHConnectionManager) (ops : List Op)
    (h : keysAligned st) : keysAligned (runOps st ops) := by
  induction ops generalizing st with
  | nil => exact h
  | cons op rest ih =>
      exact ih (applyOp st op) (keysAligned_applyOp st op h)

/-! ### Trace lemmas for the websocket bridge loop -/

theorem countDisconnected_append (a b : List WsMsg) :
    countDisconnected (a ++ b) = countDisconnected a + countDisconnected b :=
  List.countP_append _ a b

theorem countDisconnected_outputChunk (s : String) :
    countDisconnected (if s = "" then [] else [WsMsg.output s]) = 0 := by
  split <;> rfl

theorem countDisconnected_one : countDisconnected [WsMsg.disconnected] = 1 := rfl

/-- Disconnected-message discipline of the loop: every trace carries at
most one `disconnected`; a loop that exits with `sessionDead` emitted
exactly one and it is the trace's last message; any other outcome emitted
none. -/
theorem wsLoop_disconnected_discipline (script : List IterEnv)
    (st : SSHConnectionManager) (id : String) :
    countDisconnected (wsLoop st id script).1 ≤ 1
    ∧ ((wsLoop st id script).2.1 = some LoopExit.sessionDead →
        countDisconnected (wsLoop st id script).1 = 1 ∧
        (wsLoop st id script).1.getLast? = some WsMsg.disconnected)
    ∧ ((wsLoop st id script).2.1 ≠ some LoopExit.sessionDead →
        countDisconnected (wsLoop st id script).1 = 0) := by
  induction script generalizing st with
  | nil => simp [wsLoop, countDisconnected]
  | cons env rest ih =>
    simp only [wsLoop]
    split
    · simp [countDisconnected]
    · split
      · simp [countDisconnected]
      · split <;> split
        · split <;>
            simp [countDisconnected_append, countDisconnected_outputChunk,
              countDisconnected_one, List.getLast?_concat]
        · dsimp only
          refine ⟨?_, fun hd => ?_, fun hnd => ?_⟩
          · simpa [countDisconnected_append, countDisconnected_outputChunk]
              using (ih _).1
          · obtain ⟨hc, hl⟩ := (ih _).2.1 hd
            refine ⟨by simpa [countDisconnected_append,
              countDisconnected_outputChunk] using hc, ?_⟩
            rw [List.getLast?_append, hl]
            rfl
          · simpa [countDisconnected_append, countDisconnected_outputChunk]
              using (ih _).2.2 hnd
        · split <;>
            simp [countDisconnected_append, countDisconnected_outputChunk,
              countDisconnected_one, List.getLast?_concat]
        · dsimp only
          refine ⟨?_, fun hd => ?_, fun hnd => ?_⟩
          · simpa [countDisconnected_append, countDisconnected_outputChunk]
              using (ih _).1
          · obtain ⟨hc, hl⟩ := (ih _).2.1 hd
            refine ⟨by simpa [countDisconnected_append,
              countDisconnected_outputChunk] using hc, ?_⟩
            rw [List.getLast?_append, hl]
            rfl
          · simpa [countDisconnected_append, countDisconnected_outputChunk]
              using (ih _).2.2 hnd

/-! ### Ordering of drained output across reads -/

theorem pushChunks_lookup {st : SSHConnectionManager} {id : String} {ch : Channel}
    (h : lookupKey st.channels id = some ch) (b : List String) :
    lookupKey (pushChunks st id b).channels id =
      some { ch with buffer := ch.buffer ++ b } ∧
    (pushChunks st id b).connections = st.connections := by
  unfold pushChunks
  rw [h]
  exact ⟨lookupKey_insertKey_self _ _ _, rfl⟩

theorem read_output_at_some {st : SSHConnectionManager} {id : String} {ch : Channel}
    (h : lookupKey st.channels id = some ch) :
    (SSHConnectionManager.read_output st id).1 = String.join ch.buffer ∧
    lookupKey (SSHConnectionManager.read_output st id).2.channels id =
      some { ch with buffer := [] } := by
  unfold SSHConnectionManager.read_output
  rw [h]
  exact ⟨rfl, lookupKey_insertKey_self _ _ _⟩

/-- Concatenating the successive strings returned by `read_output`,
starting from an empty channel buffer, reproduces the remote side's
chunks flattened in production order: no reordering within one read or
across reads. -/
theorem readsTrace_order_preserving (batches : List (List String)) :
    ∀ (st : SSHConnectionManager) (id : String) (ch : Channel),
    lookupKey st.channels id = some ch → ch.buffer = [] →
    String.join (readsTrace st id batches) = String.join batches.flatten := by
  induction batches with
  | nil =>
      intro st id ch h hb
      rfl
  | cons b rest ih =>
      intro st id ch h hb
      have h1 := (pushChunks_lookup h b).1
      have h2 := read_output_at_some h1
      rw [readsTrace, stringJoin_cons, h2.1, hb]
      rw [ih _ id { ch with buffer := [] } h2.2 rfl]
      rw [List.flatten_cons]
      apply String.ext
      simp [String.join_eq, String.data_append, List.flatten_append]

/-! ### Concrete states used by counterexamples and witnesses -/

/-- A healthy channel holding two buffered chunks. -/
def chDemo : Channel := { buffer := ["a", "b"], sendFails := false }

/-- A channel whose `send` raises (remote error mid-session). -/
def chFailing : Channel := { buffer := [], sendFails := true }

/-- A healthy channel with an empty buffer. -/
def chEmpty : Channel := { buffer := [], sendFails := false }

/-- One registered session `"a"` with a healthy channel, reached from the
empty manager by a successful connect. -/
def stDemo : SSHConnectionManager :=
  runOps SSHConnectionManager.init [Op.connect "a" true true chDemo]

/-- One registered session `"a"` whose channel errors on `send`, reached
from the empty manager by a successful connect. -/
def stFailing : SSHConnectionManager :=
  runOps SSHConnectionManager.init [Op.connect "a" true true chFailing]

/-- One registered session `"a"` with an empty output buffer. -/
def stEmptyBuf : SSHConnectionManager :=
  runOps SSHConnectionManager.init [Op.connect "a" true true chEmpty]

/-! ### Claim theorems -/

/-- C1 (counterexample): for a readonly caller on a live session, `send`,
`resize` and `disconnect` all succeed instead of being rejected with a
403 permission error — only `connect` performs the role check. -/
theorem c1_counterexample :
    ssh_send Role.readonly stDemo "a" "ls" = (Except.ok "sent", stDemo)
    ∧ ssh_resize Role.readonly stDemo "a" 100 30 = (Except.ok "resized", stDemo)
    ∧ ssh_disconnect Role.readonly stDemo "a" =
        (Except.ok "SSH connection closed",
         { connections := [], channels := [] }) := by
  refine ⟨rfl, rfl, rfl⟩

/-- C1 (amended): only the connect entry point denies readonly callers,
answering 403 before touching any session state; `send`, `read`, `resize`
and `disconnect` perform no role check at all — their behaviour is
independent of the caller's role, and none of them can answer 403 (their
only outcomes are success or the 400 unknown-session error). -/
theorem c1_role_check_only_on_connect :
    (∀ pa server st id ok ch,
        ssh_connect Role.readonly pa server st id ok ch =
          (Except.error ⟨403, "Permission denied"⟩, st))
    ∧ (∀ r st id d, ssh_send r st id d = ssh_send Role.admin st id d)
    ∧ (∀ r st id, ssh_read r st id = ssh_read Role.admin st id)
    ∧ (∀ r st id c rows, ssh_resize r st id c rows =
        ssh_resize Role.admin st id c rows)
    ∧ (∀ r st id, ssh_disconnect r st id = ssh_disconnect Role.admin st id)
    ∧ (∀ r st id d, (ssh_send r st id d).1 = Except.ok "sent"
        ∨ (ssh_send r st id d).1 =
            Except.error ⟨400, "SSH connection not found"⟩)
    ∧ (∀ r st id c rows, (ssh_resize r st id c rows).1 = Except.ok "resized"
        ∨ (ssh_resize r st id c rows).1 =
            Except.error ⟨400, "SSH connection not found"⟩)
    ∧ (∀ r st id, (ssh_disconnect r st id).1 =
        Except.ok "SSH connection closed") := by
  refine ⟨?_, ?_, ?_, ?_, ?_, ?_, ?_, ?_⟩
  · intro pa server st id ok ch
    rfl
  · intro r st id d
    rfl
  · intro r st id
    rfl
  · intro r st id c rows
    rfl
  · intro r st id
    rfl
  · intro r st id d
    by_cases h : SSHConnectionManager.is_connected st id = true
    · exact Or.inl (by simp [ssh_send, h])
    · exact Or.inr (by simp [ssh_send, h])
  · intro r st id c rows
    by_cases h : SSHConnectionManager.is_connected st id = true
    · exact Or.inl (by simp [ssh_resize, h])
    · exact Or.inr (by simp [ssh_resize, h])
  · intro r st id
    rfl

/-- C2 (counterexample): in the reachable state `stFailing`, a `send`
observes a channel error (returns `False`), yet the session stays fully
registered: the manager state is untouched, `is_connected` is still true
and the id is still a `channels` key — the claimed teardown never
happens. -/
theorem c2_counterexample :
    SSHConnectionManager.send_command stFailing "a" "whoami" = false
    ∧ applyOp stFailing (Op.send "a" "whoami") = stFailing
    ∧ SSHConnectionManager.is_connected stFailing "a" = true
    ∧ hasKey stFailing.channels "a" = true := by
  refine ⟨rfl, rfl, rfl, rfl⟩

/-- C2 (amended): a failed mid-session `send` reports failure to its
caller but performs no cleanup whatsoever — `send` never modifies the
registry, and the polling send endpoint even answers `"sent"` for a
connected id regardless of whether the channel send failed; liveness in
the registry is plain map membership, so an entry with an erroring
channel remains registered until an explicit disconnect. -/
theorem c2_failed_send_leaves_registry :
    (∀ st id data, applyOp st (Op.send id data) = st)
    ∧ (∀ r st id data, SSHConnectionManager.is_connected st id = true →
        ssh_send r st id data = (Except.ok "sent", st)) := by
  refine ⟨fun st id data => rfl, ?_⟩
  intro r st id data h
  simp [ssh_send, h]

/-- C2 witness: the amended statement applied in the reachable state with
an erroring channel. -/
theorem c2_witness :
    SSHConnectionManager.is_connected stFailing "a" = true
    ∧ ssh_send Role.user stFailing "a" "whoami" = (Except.ok "sent", stFailing) :=
  ⟨rfl, c2_failed_send_leaves_registry.2 Role.user stFailing "a" "whoami" rfl⟩

/-- C3: after `disconnect(id)`, every `send`, `read` and `resize` on `id`
answers the unknown-session error (HTTP 400, "SSH connection not
found"), while a second `disconnect` — like a disconnect of an id that
never existed — succeeds as a no-op. -/
theorem c3_post_disconnect_unknown_session (st : SSHConnectionManager)
    (id : String) (r1 r2 r3 r4 : Role) (d : String) (c rows : Nat) :
    ssh_send r1 (SSHConnectionManager.disconnect st id).1 id d =
      (Except.error ⟨400, "SSH connection not found"⟩,
       (SSHConnectionManager.disconnect st id).1)
    ∧ ssh_read r2 (SSHConnectionManager.disconnect st id).1 id =
        (Except.error ⟨400, "SSH connection not found"⟩,
         (SSHConnectionManager.disconnect st id).1)
    ∧ ssh_resize r3 (SSHConnectionManager.disconnect st id).1 id c rows =
        (Except.error ⟨400, "SSH connection not found"⟩,
         (SSHConnectionManager.disconnect st id).1)
    ∧ ssh_disconnect r4 (SSHConnectionManager.disconnect st id).1 id =
        (Except.ok "SSH connection closed",
         (SSHConnectionManager.disconnect st id).1)
    ∧ SSHConnectionManager.disconnect (SSHConnectionManager.disconnect st id).1 id =
        ((SSHConnectionManager.disconnect st id).1, []) := by
  have hdead := is_connected_disconnect st id
  refine ⟨by simp [ssh_send, hdead], by simp [ssh_read, hdead],
    by simp [ssh_resize, hdead], ?_, disconnect_idem st id⟩
  rw [ssh_disconnect, disconnect_idem st id]

/-- C4: a connect that fails stores nothing. A non-linux target is
rejected with the typed 400 before any connection attempt (for any
authorized caller, uniformly in the remote outcome), and on every error
answer of the connect endpoint the manager state is returned exactly as
it was — no registry entry is created. -/
theorem c4_failed_connect_stores_nothing :
    (∀ r pa (s : Server) st id ok ch, r ≠ Role.readonly → pa = true →
        s.os_type ≠ "linux" →
        ssh_connect r pa (some s) st id ok ch =
          (Except.error ⟨400, "SSH only available for Linux servers"⟩, st))
    ∧ (∀ r pa server st id ok ch e,
        (ssh_connect r pa server st id ok ch).1 = Except.error e →
        (ssh_connect r pa server st id ok ch).2 = st) := by
  constructor
  · intro r pa s st id ok ch hr hpa hos
    simp [ssh_connect, hr, hpa, hos]
  · intro r pa server st id ok ch e h
    by_cases hr : r = Role.readonly
    · simp [ssh_connect, hr]
    · by_cases hpa : pa
      · cases server with
        | none => simp [ssh_connect, hr, hpa]
        | some s =>
            by_cases hos : s.os_type = "linux"
            · by_cases hok : ok
              · exfalso
                simp [ssh_connect, hr, hpa, hos, hok,
                  SSHConnectionManager.connect] at h
              · simp [ssh_connect, hr, hpa, hos, hok,
                  SSHConnectionManager.connect]
            · simp [ssh_connect, hr, hpa, hos]
      · simp [ssh_connect, hr, hpa]

/-- C4 witness: the platform rejection on a windows-flagged server, and
the unchanged-state conclusion on a failed remote connect, both at
concrete inputs. -/
theorem c4_witness :
    ssh_connect Role.user true (some ⟨"windows", "10.0.0.5", 22⟩) stDemo "b"
        true chEmpty =
      (Except.error ⟨400, "SSH only available for Linux servers"⟩, stDemo)
    ∧ (ssh_connect Role.user true (some ⟨"linux", "10.0.0.5", 22⟩) stDemo "b"
        false chEmpty).2 = stDemo :=
  ⟨c4_failed_connect_stores_nothing.1 Role.user true ⟨"windows", "10.0.0.5", 22⟩
      stDemo "b" true chEmpty (by decide) rfl (by decide),
   c4_failed_connect_stores_nothing.2 Role.user true
      (some ⟨"linux", "10.0.0.5", 22⟩) stDemo "b" false chEmpty
      ⟨400, "Failed to establish SSH connection"⟩ rfl⟩

/-- C5: whenever the websocket bridge finishes because it observed the
session no longer alive (`sessionDead`), its trace contains exactly one
`disconnected` message and that message is the last one delivered — no
`output` message follows it, and the stream then closes. -/
theorem c5_single_disconnected_then_close (st : SSHConnectionManager)
    (id : String) (script : List IterEnv) (msgs : List WsMsg)
    (stFin : SSHConnectionManager)
    (h : ssh_websocket st id script =
      (msgs, WsOutcome.finished LoopExit.sessionDead, stFin)) :
    countDisconnected msgs = 1 ∧ msgs.getLast? = some WsMsg.disconnected := by
  by_cases hc : SSHConnectionManager.is_connected st id = true
  · rw [ssh_websocket, if_neg (by simp [hc])] at h
    dsimp only at h
    cases hE : (wsLoop st id script).2.1 with
    | none =>
        rw [hE] at h
        simp at h
    | some e =>
        rw [hE] at h
        simp only [Prod.mk.injEq, WsOutcome.finished.injEq] at h
        obtain ⟨hm, he, hs⟩ := h
        subst he
        have hd := (wsLoop_disconnected_discipline script st id).2.1 hE
        rw [hm] at hd
        exact hd
  · rw [ssh_websocket, if_pos (by simp [hc])] at h
    simp at h

/-- C5 witness: a concrete bridge run on a live session torn down
mid-iteration, delivering one output then the single final
`disconnected`. -/
theorem c5_witness :
    countDisconnected [WsMsg.output "ab", WsMsg.disconnected] = 1
    ∧ [WsMsg.output "ab", WsMsg.disconnected].getLast? =
        some WsMsg.disconnected :=
  c5_single_disconnected_then_close stDemo "a"
    [{ msg := ClientMsg.timeout, arrived := [], externalDisconnect := true,
       sendFails := false }]
    [WsMsg.output "ab", WsMsg.disconnected] { connections := [], channels := [] }
    (by decide)

/-- C6: opening the websocket stream for an id that is not connected
(unknown, or not alive in the only sense the code tracks) closes the
stream immediately with code 4000: the trace is empty — no input is
forwarded, no output is read — the pump loop is never entered and the
manager state is untouched. -/
theorem c6_unknown_stream_rejected (st : SSHConnectionManager) (id : String)
    (script : List IterEnv)
    (h : SSHConnectionManager.is_connected st id = false) :
    ssh_websocket st id script = ([], WsOutcome.rejected 4000, st) := by
  rw [ssh_websocket, if_pos (by simp [h])]

/-- C6 witness: a stream opened for an id that was never created. -/
theorem c6_witness :
    ssh_websocket SSHConnectionManager.init "nope"
      [{ msg := ClientMsg.input "ls", arrived := ["x"],
         externalDisconnect := false, sendFails := false }] =
      ([], WsOutcome.rejected 4000, SSHConnectionManager.init) :=
  c6_unknown_stream_rejected SSHConnectionManager.init "nope"
    [{ msg := ClientMsg.input "ls", arrived := ["x"],
       externalDisconnect := false, sendFails := false }] rfl

/-- C7: on every path on which the websocket handler's loop finishes —
client closed the stream, a send raised, or the session was observed
dead — the `finally` block has run `ssh_manager.disconnect`, so in the
final manager state the connection id is gone from both dicts and
`is_connected` is false. -/
theorem c7_exit_always_destroys_session (st : SSHConnectionManager)
    (id : String) (script : List IterEnv) (msgs : List WsMsg) (ex : LoopExit)
    (stFin : SSHConnectionManager)
    (h : ssh_websocket st id script = (msgs, WsOutcome.finished ex, stFin)) :
    SSHConnectionManager.is_connected stFin id = false
    ∧ hasKey stFin.channels id = false
    ∧ hasKey stFin.connections id = false := by
  by_cases hc : SSHConnectionManager.is_connected st id = true
  · rw [ssh_websocket, if_neg (by simp [hc])] at h
    dsimp only at h
    cases hE : (wsLoop st id script).2.1 with
    | none =>
        rw [hE] at h
        simp at h
    | some e =>
        rw [hE] at h
        simp only [Prod.mk.injEq, WsOutcome.finished.injEq] at h
        obtain ⟨hm, he, hs⟩ := h
        subst hs
        refine ⟨is_connected_disconnect _ id, ?_, ?_⟩
        · rw [disconnect_channels_hasKey]
          simp
        · rw [disconnect_connections_hasKey]
          simp
  · rw [ssh_websocket, if_pos (by simp [hc])] at h
    simp at h

/-- C7 witness: a client-closed run ends with the session destroyed. -/
theorem c7_witness :
    SSHConnectionManager.is_connected
        { connections := [], channels := [] } "a" = false
    ∧ hasKey (SSHConnectionManager.channels
        { connections := [], channels := [] }) "a" = false
    ∧ hasKey (SSHConnectionManager.connections
        { connections := [], channels := [] }) "a" = false :=
  c7_exit_always_destroys_session stDemo "a"
    [{ msg := ClientMsg.closeStream, arrived := [],
       externalDisconnect := false, sendFails := false }]
    [] LoopExit.clientClosed { connections := [], channels := [] } (by decide)

/-- C8: destroying a registered session closes its channel strictly
before its transport (the close-event trace is exactly channel, then
transport), and the operation is idempotent: on a state with no entry for
the id — never created or already destroyed — it is a no-op without
error, and a second disconnect right after a first is a no-op. -/
theorem c8_close_order_and_idempotence (st : SSHConnectionManager)
    (id : String) :
    (SSHConnectionManager.is_connected st id = true →
      (SSHConnectionManager.disconnect st id).2 =
        [CloseEvent.closeChannel id, CloseEvent.closeTransport id])
    ∧ (hasKey st.channels id = false → hasKey st.connections id = false →
        SSHConnectionManager.disconnect st id = (st, []))
    ∧ SSHConnectionManager.disconnect
        (SSHConnectionManager.disconnect st id).1 id =
      ((SSHConnectionManager.disconnect st id).1, []) := by
  refine ⟨?_, disconnect_of_no_entry st id, disconnect_idem st id⟩
  intro hconn
  rw [SSHConnectionManager.is_connected, Bool.and_eq_true] at hconn
  unfold SSHConnectionManager.disconnect
  simp [hconn.1, hconn.2]

/-- C8 witness: close order on a live session; no-op on an unknown id. -/
theorem c8_witness :
    (SSHConnectionManager.disconnect stDemo "a").2 =
      [CloseEvent.closeChannel "a", CloseEvent.closeTransport "a"]
    ∧ SSHConnectionManager.disconnect SSHConnectionManager.init "zzz" =
        (SSHConnectionManager.init, []) :=
  ⟨(c8_close_order_and_idempotence stDemo "a").1 rfl,
   (c8_close_order_and_idempotence SSHConnectionManager.init "zzz").2.1 rfl rfl⟩

/-- C9: starting from an empty channel buffer, the concatenation of the
strings returned by successive reads — each read itself concatenating the
buffered chunks front-first — equals the flattening of all chunk batches
in the order the remote side produced them: no reordering within one
read or across reads. -/
theorem c9_reads_preserve_order (st : SSHConnectionManager) (id : String)
    (ch : Channel) (batches : List (List String))
    (h : lookupKey st.channels id = some ch) (hb : ch.buffer = []) :
    String.join (readsTrace st id batches) = String.join batches.flatten :=
  readsTrace_order_preserving batches st id ch h hb

/-- C9 witness: two reads over two arrival batches reproduce the chunks
in production order. -/
theorem c9_witness :
    String.join (readsTrace stEmptyBuf "a" [["x", "y"], ["z"]]) =
      String.join [["x", "y"], ["z"]].flatten :=
  c9_reads_preserve_order stEmptyBuf "a" chEmpty [["x", "y"], ["z"]] rfl rfl

/-- C10: after any sequence of manager operations from the initial empty
manager, the key set of `connections` coincides with the key set of
`channels`, and `is_connected id` is exactly the conjunction of the two
memberships. -/
theorem c10_key_sets_aligned (ops : List Op) (id : String) :
    hasKey (runOps SSHConnectionManager.init ops).connections id =
      hasKey (runOps SSHConnectionManager.init ops).channels id
    ∧ SSHConnectionManager.is_connected (runOps SSHConnectionManager.init ops) id =
        (hasKey (runOps SSHConnectionManager.init ops).connections id &&
         hasKey (runOps SSHConnectionManager.init ops).channels id) :=
  ⟨keysAligned_runOps SSHConnectionManager.init ops keysAligned_init id, rfl⟩
